import Mathlib

set_option linter.unusedVariables false

/-!
Verification of the tbi-agents conversational-assistant backend.

Each section shallowly embeds one Python source file of the repository:
pure computations become Lean functions, and effectful boundaries
(the model token stream, SMTP sends, vector-store retrieval) are made
explicit parameters recording the external system's observable behaviour.
-/

namespace Py

/-- Split a character list at every occurrence of `sep` (helper for
`split`). -/
def splitCharsOn (sep : Char) : List Char → List (List Char)
  | [] => [[]]
  | c :: cs =>
    match splitCharsOn sep cs with
    | [] => [[]]
    | h :: t => if c = sep then [] :: h :: t else (c :: h) :: t

/-- Python's `s.split(sep)` for a one-character separator: splits at every
occurrence, keeping empty parts (`"".split(",") == [""]`). -/
def split (sep : Char) (s : String) : List String :=
  (splitCharsOn sep s.data).map String.mk

/-- Python's `s.strip()`: remove leading and trailing whitespace. -/
def strip (s : String) : String :=
  String.mk
    (((s.data.dropWhile Char.isWhitespace).reverse.dropWhile
        Char.isWhitespace).reverse)

/-- Python's `c in s` for a one-character needle. -/
def containsChar (s : String) (c : Char) : Bool :=
  s.data.contains c

end Py

namespace StreamHelper

/-- Usage metadata attached to a streamed chunk, as read by
`usage.get("input_tokens")` / `usage.get("output_tokens")`
in `stream_generator` (stream_helper.py): each field may be `None`. -/
structure UsageMeta where
  input_tokens : Option Nat
  output_tokens : Option Nat
deriving Repr, DecidableEq

/-- One chunk delivered by `agent.stream(..., stream_mode="messages")`:
`content` is `getattr(last_message, "content", None)`, and
`usage_metadata` is `none` when the attribute is absent or falsy
(the Python guard `hasattr(...) and last_message.usage_metadata`). -/
structure Chunk where
  content : Option String
  usage_metadata : Option UsageMeta
deriving Repr, DecidableEq

/-- How driving the underlying agent stream ends: it either completes
normally after the delivered chunks, or raises while the generator is
pulling the next chunk. -/
inductive StreamOutcome where
  | done
  | raises (msg : String)
deriving Repr, DecidableEq

/-- The three SSE event shapes emitted by `stream_generator`
(the `data: <json>\n\n` framing is kept abstract). -/
inductive SSEEvent where
  | streaming (message : Option String)
  | usage (input_tokens output_tokens total_tokens : Nat)
  | error (message : String)
deriving Repr, DecidableEq

/-- Per-chunk token-counter update in `stream_generator`: each field of the
chunk's usage metadata overwrites the corresponding counter independently,
and only when it is not `None`. -/
def updateTokens (prompt_tokens completion_tokens : Nat) (u : Option UsageMeta) :
    Nat × Nat :=
  match u with
  | none => (prompt_tokens, completion_tokens)
  | some usage =>
    (match usage.input_tokens with
     | some v => v
     | none => prompt_tokens,
     match usage.output_tokens with
     | some v => v
     | none => completion_tokens)

/-- The loop of `stream_generator` (stream_helper.py, lines 30–83): one
`streaming` event per delivered chunk while the token counters are folded,
then a single `usage` event on normal completion, or a single `error` event
if pulling the next chunk raises (the `except` clause). -/
def streamLoop (outcome : StreamOutcome) :
    List Chunk → Nat → Nat → List SSEEvent
  | [], prompt_tokens, completion_tokens =>
    match outcome with
    | .done =>
      [.usage prompt_tokens completion_tokens (prompt_tokens + completion_tokens)]
    | .raises msg => [.error msg]
  | c :: rest, prompt_tokens, completion_tokens =>
    let counters := updateTokens prompt_tokens completion_tokens c.usage_metadata
    .streaming c.content :: streamLoop outcome rest counters.1 counters.2

/-- `stream_generator` (stream_helper.py): the full event sequence produced
for a turn whose underlying stream delivers `chunks` and then finishes with
`outcome`.  Counters start at `prompt_tokens = 0`, `completion_tokens = 0`. -/
def stream_generator (chunks : List Chunk) (outcome : StreamOutcome) :
    List SSEEvent :=
  streamLoop outcome chunks 0 0

/-- Recognizer for `usage` frames. -/
def isUsage : SSEEvent → Bool
  | .usage _ _ _ => true
  | _ => false

/-- Recognizer for `error` frames. -/
def isError : SSEEvent → Bool
  | .error _ => true
  | _ => false

end StreamHelper

namespace EmailAgent

/-- Python's `recipients.split(",")` followed by `.strip()` on each entry
(email_agent.py, `send_bulk_email`). -/
def parse_recipients (recipients : String) : List String :=
  (Py.split ',' recipients).map Py.strip

/-- The validity test of email_agent.py: an address is invalid when it lacks
`@` or lacks `.` (the check `"@" not in e or "." not in e`). -/
def is_invalid_email (e : String) : Bool :=
  !Py.containsChar e '@' || !Py.containsChar e '.'

/-- `invalid_emails` as computed inside `send_bulk_email`. -/
def invalid_emails_of (recipients : String) : List String :=
  (parse_recipients recipients).filter is_invalid_email

/-- `send_bulk_email` (email_agent.py, lines 109–139).  The SMTP layer is
made explicit: `connErr = some e` means opening/starttls/login on the shared
connection raises with message `e` (caught by the outer `except`), and
`sendOk r` tells whether the per-recipient `server.sendmail` call succeeds.
The result is the returned string paired with the ordered list of recipients
for which a `sendmail` call was attempted. -/
def send_bulk_email (connErr : Option String) (sendOk : String → Bool)
    (recipients subject body : String) : String × List String :=
  let email_list := parse_recipients recipients
  let invalid_emails := invalid_emails_of recipients
  if invalid_emails ≠ [] then
    let names := String.intercalate ", " invalid_emails
    (s!"Error: Invalid email addresses: {names}", [])
  else
    match connErr with
    | some e => (s!"Error in bulk email: {e}", [])
    | none =>
      let counts := email_list.foldl
        (fun acc recipient =>
          if sendOk recipient then (acc.1 + 1, acc.2) else (acc.1, acc.2 + 1))
        (0, 0)
      let sent_count := counts.1
      let failed_count := counts.2
      (s!"✓ Bulk email complete: {sent_count} sent, {failed_count} failed",
       email_list)

/-- The rendered MIME message of `send_email_with_cc_bcc` (header name/value
pairs, in the order they are set on `msg`) together with the envelope
recipient list passed to `server.sendmail`. -/
structure SentMessage where
  headers : List (String × String)
  to_addrs : List String
deriving Repr, DecidableEq

/-- `send_email_with_cc_bcc` (email_agent.py, lines 159–191).  `sender` is
the `SENDER_EMAIL` configuration value; `connErr` as in `send_bulk_email`.
Returns the result string and, when a send happened, the message that went
out.  CC/BCC strings are split on commas, trimmed, and empties dropped
(`[e.strip() for e in cc.split(",") if e.strip()]`, guarded by `if cc`);
only `Subject`, `From`, `To` and (when non-empty) `Cc` headers are set —
no `Bcc` header — while the envelope is `[recipient] + cc_list + bcc_list`. -/
def send_email_with_cc_bcc (connErr : Option String)
    (sender recipient subject body cc bcc : String) :
    String × Option SentMessage :=
  if !Py.containsChar recipient '@' || !Py.containsChar recipient '.' then
    (s!"Error: Invalid primary recipient: {recipient}", none)
  else
    let cc_list :=
      if cc ≠ "" then ((Py.split ',' cc).map Py.strip).filter (· ≠ "") else []
    let bcc_list :=
      if bcc ≠ "" then ((Py.split ',' bcc).map Py.strip).filter (· ≠ "") else []
    let cc_joined := String.intercalate ", " cc_list
    let headers :=
      [("Subject", subject), ("From", sender), ("To", recipient)]
        ++ (if cc_list ≠ [] then [("Cc", cc_joined)] else [])
    let all_recipients := recipient :: (cc_list ++ bcc_list)
    match connErr with
    | some e => (s!"Error sending email with CC/BCC: {e}", none)
    | none =>
      let recipient_info := s!"To: {recipient}"
      let recipient_info :=
        if cc_list ≠ [] then recipient_info ++ s!", CC: {cc_joined}"
        else recipient_info
      let bcc_count := bcc_list.length
      let recipient_info :=
        if bcc_list ≠ [] then recipient_info ++ s!", BCC: {bcc_count} recipient(s)"
        else recipient_info
      (s!"✓ Email sent ({recipient_info})",
       some { headers := headers, to_addrs := all_recipients })

end EmailAgent

namespace Ingest

/-- The `metadata` dict of one parsed taxonomy entry
(ingest_portfolio.py): each key may be absent (`none`). -/
structure RawMeta where
  category : Option String
  sub_type : Option String
  keywords : Option (List String)
  project_ref : Option String
deriving Repr, DecidableEq

/-- One parsed taxonomy entry as handed to `_validate_item`: the `content`
and `metadata` keys may be absent. -/
structure RawItem where
  content : Option String
  metadata : Option RawMeta
deriving Repr, DecidableEq

/-- Validated metadata, after trimming. -/
structure ChunkMeta where
  category : String
  sub_type : String
  keywords : List String
  project_ref : String
deriving Repr, DecidableEq

/-- One validated taxonomy chunk, as returned by `_validate_item`. -/
structure TaxChunk where
  content : String
  metadata : ChunkMeta
deriving Repr, DecidableEq

/-- `required_categories` (ingest_portfolio.py, lines 104–110), in the order
the source lists them. -/
def required_categories : List String :=
  ["Technical_Capability", "Domain_Expertise", "Business_Impact_Trust",
   "Engagement_Hiring", "Process_Communication"]

/-- The same five categories in alphabetical order: the source reports
missing categories as `sorted(list(missing))`, so filtering this list
reproduces that sorted order. -/
def required_categories_sorted : List String :=
  ["Business_Impact_Trust", "Domain_Expertise", "Engagement_Hiring",
   "Process_Communication", "Technical_Capability"]

/-- `_validate_item` (ingest_portfolio.py, lines 115–147): checks presence
of `content`/`metadata`, non-emptiness of trimmed content, presence of the
four metadata keys in the order the source checks them, and membership of
`category` in the allowed set; on success trims `sub_type`/`project_ref`
and trims `keywords` dropping entries that become empty. -/
def validate_item (item : RawItem) : Except String TaxChunk :=
  match item.content, item.metadata with
  | none, _ => .error "Missing 'content' or 'metadata'"
  | _, none => .error "Missing 'content' or 'metadata'"
  | some content, some metadata =>
    if Py.strip content = "" then .error "'content' must be non-empty string"
    else
      match metadata.category, metadata.sub_type,
            metadata.keywords, metadata.project_ref with
      | none, _, _, _ => .error "Missing metadata.category"
      | _, none, _, _ => .error "Missing metadata.sub_type"
      | _, _, none, _ => .error "Missing metadata.keywords"
      | _, _, _, none => .error "Missing metadata.project_ref"
      | some category, some sub_type, some keywords, some project_ref =>
        if !required_categories.contains category then
          .error s!"Invalid category: {category}"
        else
          .ok { content := Py.strip content,
                metadata := { category := category,
                              sub_type := Py.strip sub_type,
                              keywords := (keywords.map Py.strip).filter (· ≠ ""),
                              project_ref := Py.strip project_ref } }

/-- The validation loop of `build_taxonomy_chunks_from_project_json`
(lines 149–153): validate every entry in order, failing on the first
violation. -/
def validate_items : List RawItem → Except String (List TaxChunk)
  | [] => .ok []
  | item :: rest =>
    match validate_item item with
    | .error e => .error e
    | .ok v =>
      match validate_items rest with
      | .error e => .error e
      | .ok vs => .ok (v :: vs)

/-- The validation phase of `build_taxonomy_chunks_from_project_json`
(ingest_portfolio.py, lines 104–159), taking the already-parsed taxonomy
list (the LLM call and JSON extraction that precede it are external I/O):
validate all entries, then require the set of seen categories to cover all
five required categories, reporting the missing ones in sorted order. -/
def build_taxonomy_chunks (taxonomy_list : List RawItem) :
    Except String (List TaxChunk) :=
  match validate_items taxonomy_list with
  | .error e => .error e
  | .ok validated_chunks =>
    let seen_categories := validated_chunks.map (fun v => v.metadata.category)
    let missing :=
      required_categories_sorted.filter (fun c => !seen_categories.contains c)
    if missing ≠ [] then
      let names := String.intercalate ", " missing
      .error s!"Missing categories: {names}"
    else
      .ok validated_chunks

/-- A knowledge-base document as produced by `convert_to_documents`
(keywords flattened to a comma-joined string; the wall-clock timestamp is a
parameter). -/
structure IngestDocument where
  page_content : String
  category : String
  sub_type : String
  keywords : String
  project_ref : String
  timestamp : String
deriving Repr, DecidableEq

/-- `convert_to_documents` (ingest_portfolio.py, lines 162–179). -/
def convert_to_documents (timestamp : String) (taxonomy_chunks : List TaxChunk) :
    List IngestDocument :=
  taxonomy_chunks.map fun chunk =>
    { page_content := chunk.content,
      category := chunk.metadata.category,
      sub_type := chunk.metadata.sub_type,
      keywords := String.intercalate ", " chunk.metadata.keywords,
      project_ref := chunk.metadata.project_ref,
      timestamp := timestamp }

/-- The tail of `load_and_process_data` (ingest_portfolio.py, lines 235–269)
from the parsed taxonomy list onwards: a validation failure aborts the run
before conversion and upsert, and `upsert_documents_to_vectorstore` is
skipped when no documents were produced — `none` means nothing was
committed to the knowledge base. -/
def ingest_commit (timestamp : String) (parsed : List RawItem) :
    Option (List IngestDocument) :=
  match build_taxonomy_chunks parsed with
  | .error _ => none
  | .ok taxonomy_chunks =>
    let documents := convert_to_documents timestamp taxonomy_chunks
    if documents = [] then none else some documents

end Ingest

namespace Supervisor

/-- A document retrieved from the vector store, as consumed by
`message_generator_node` (supervisor.py): `page_content` and the
`category` metadata key, which may be absent
(`doc.metadata.get("category", "General")`). -/
structure Document where
  page_content : String
  category : Option String
deriving Repr, DecidableEq

/-- The per-document rendering inside `message_generator_node`
(supervisor.py, line 199–201): `f"[{category}] {content}"` with category
defaulted to `"General"`. -/
def renderDoc (doc : Document) : String :=
  let category := doc.category.getD "General"
  let content := doc.page_content
  s!"[{category}] {content}"

/-- The `AgentContext` dataclass of supervisor.py. -/
structure AgentContext where
  rag_context : String
  has_rag_data : Bool
deriving Repr, DecidableEq

/-- The context-building prefix of `message_generator_node` (supervisor.py,
lines 190–217): `has_rag_data = len(rag_data) > 0`; when true, the context
string joins the renderings of `rag_data[:5]` with blank lines, otherwise
it is empty.  The resulting `AgentContext` is what the grounded message
agent is invoked with. -/
def message_generator_context (rag_data : List Document) : AgentContext :=
  let has_rag_data := decide (0 < rag_data.length)
  if 0 < rag_data.length then
    let context_parts := (rag_data.take 5).map renderDoc
    { rag_context := String.intercalate "\n\n" context_parts,
      has_rag_data := has_rag_data }
  else
    { rag_context := "", has_rag_data := has_rag_data }

/-- How one retrieval attempt by the MultiQuery retriever ends: a document
list, or an exception with a message. -/
inductive RetrievalOutcome where
  | ok (docs : List Document)
  | raises (msg : String)
deriving Repr, DecidableEq

/-- `rag_executor_node` (supervisor.py, lines 107–147).  The state's
`intent` field may be absent (`state.get("intent", "")`); Python's
`if not intent` treats both an absent and an empty intent as falsy.  The
retrieval call is an explicit outcome parameter.  Returns the `rag_data`
list the node stores into the state, paired with whether a retrieval was
attempted; the node is total — every exception is caught and turned into
an empty result list. -/
def rag_executor_node (intent : Option String) (retrieval : RetrievalOutcome) :
    List Document × Bool :=
  let i := intent.getD ""
  if i = "" then
    ([], false)
  else
    match retrieval with
    | .ok unique_docs => (unique_docs, true)
    | .raises _ => ([], true)

end Supervisor

namespace Views

/-- The response of the `/api/chat` view: either a `JsonResponse` carrying
an `error` field with an HTTP status, or the `StreamingHttpResponse` built
around `stream_generator` (its content type, charset, `Cache-Control`
header, the `thread_id` of the run configuration, and the content of the
single `HumanMessage` placed in `agent_input`). -/
inductive HttpResponse where
  | jsonError (status : Nat) (error : String)
  | eventStream (content_type charset cache_control : String)
      (thread_id : String) (message_content : Option String)
deriving Repr, DecidableEq

/-- Which per-request resources the view touched: whether the
`ChatOpenAI` model handle was constructed and whether a pooled database
connection was acquired. -/
structure RequestTrace where
  model_constructed : Bool
  connection_acquired : Bool
deriving Repr, DecidableEq

/-- `chat_asistance` (views.py, lines 69–118).  Form fields are read with
`request.POST.get`, so each is `none` when absent; `if not session_id`
rejects both an absent and an empty session id with a 400 before the model
handle is created (line 82) and before a pooled connection is acquired
(line 86).  Otherwise the view builds the graph and returns the streaming
response; `user_message` undergoes no validation and is passed through as
the message content. -/
def chat_asistance (session_id user_message : Option String) :
    HttpResponse × RequestTrace :=
  let sessionFalsy :=
    match session_id with
    | none => true
    | some s => s = ""
  if sessionFalsy then
    (.jsonError 400 "session_id is required",
     { model_constructed := false, connection_acquired := false })
  else
    let thread_id := session_id.getD ""
    (.eventStream "text/event-stream" "utf-8" "no-cache" thread_id user_message,
     { model_constructed := true, connection_acquired := true })

end Views

/-! ## Theorems -/

section StreamTheorems

open StreamHelper

/-- Every run of the stream loop is the per-chunk `streaming` events
followed by a single terminal event, which is a `usage` or an `error`
frame. -/
theorem streamLoop_shape (outcome : StreamOutcome) :
    ∀ (chunks : List Chunk) (pt ct : Nat),
      ∃ e, streamLoop outcome chunks pt ct
          = chunks.map (fun c => SSEEvent.streaming c.content) ++ [e]
        ∧ (isUsage e || isError e) = true := by
  intro chunks
  induction chunks with
  | nil =>
    intro pt ct
    cases outcome with
    | done => exact ⟨.usage pt ct (pt + ct), rfl, rfl⟩
    | raises msg => exact ⟨.error msg, rfl, rfl⟩
  | cons c rest ih =>
    intro pt ct
    obtain ⟨e, he, hue⟩ :=
      ih (updateTokens pt ct c.usage_metadata).1
        (updateTokens pt ct c.usage_metadata).2
    refine ⟨e, ?_, hue⟩
    simp [streamLoop, he]

/-- C1: the event sequence emitted by `stream_generator` always ends in
exactly one `usage` frame (normal completion) or exactly one `error` frame
(the underlying stream raised) — never both, never neither — and every
event before the last one is a plain `streaming` frame, so nothing follows
an `error` frame. -/
theorem stream_ends_in_one_usage_xor_error
    (chunks : List Chunk) (outcome : StreamOutcome) :
    (((stream_generator chunks outcome).countP isUsage = 1
        ∧ (stream_generator chunks outcome).countP isError = 0)
      ∨ ((stream_generator chunks outcome).countP isUsage = 0
        ∧ (stream_generator chunks outcome).countP isError = 1))
    ∧ ((stream_generator chunks outcome).dropLast.all
        (fun e => !isUsage e && !isError e)) = true := by
  obtain ⟨e, he, hue⟩ := streamLoop_shape outcome chunks 0 0
  have hgen : stream_generator chunks outcome
      = chunks.map (fun c => SSEEvent.streaming c.content) ++ [e] := he
  rw [hgen]
  constructor
  · cases e with
    | streaming m => simp [isUsage, isError] at hue
    | usage i o t =>
      left
      constructor <;>
        simp [List.countP_append, List.countP_map, Function.comp, isUsage,
          isError, List.countP_eq_zero]
    | error m =>
      right
      constructor <;>
        simp [List.countP_append, List.countP_map, Function.comp, isUsage,
          isError, List.countP_eq_zero]
  · rw [List.dropLast_concat]
    simp [List.all_eq_true, isUsage, isError]

/-- C3: a stream whose chunks carry usage metadata `{input:10, output:0}`
then `{input:10, output:5}` ends with a `usage` frame reporting
`input_tokens = 10`, `output_tokens = 5`, `total_tokens = 15`: the last
observed values win, they are not summed across chunks. -/
theorem usage_last_observed_wins (c1 c2 : Option String) :
    stream_generator
      [⟨c1, some ⟨some 10, some 0⟩⟩, ⟨c2, some ⟨some 10, some 5⟩⟩] .done
    = [.streaming c1, .streaming c2, .usage 10 5 15] := rfl

/-- C9: the two token counters are overwritten independently per field —
a later chunk with `output_tokens = d` but an absent (`None`)
`input_tokens` updates only the output counter, so the final `usage` frame
combines the first chunk's input count with the second chunk's output
count. -/
theorem usage_fields_update_independently
    (a b d : Nat) (c1 c2 : Option String) :
    stream_generator
      [⟨c1, some ⟨some a, some b⟩⟩, ⟨c2, some ⟨none, some d⟩⟩] .done
    = [.streaming c1, .streaming c2, .usage a d (a + d)] := rfl

end StreamTheorems

section ViewTheorems

open Views

/-- C7: a POST to `/api/chat` whose `session_id` form field is absent or
empty is answered with status 400 and a JSON body whose `error` field is
"session_id is required", and the handler neither constructs the model
handle nor acquires a database connection in that case, whatever the
`user_message` field holds. -/
theorem chat_missing_session_id_rejected (user_message : Option String) :
    chat_asistance none user_message
      = (.jsonError 400 "session_id is required",
         { model_constructed := false, connection_acquired := false })
    ∧ chat_asistance (some "") user_message
      = (.jsonError 400 "session_id is required",
         { model_constructed := false, connection_acquired := false }) :=
  ⟨rfl, rfl⟩

/-- C10: the 400 validation rejection is triggered only by a missing or
empty `session_id`: with any non-empty `session_id` and an absent
`user_message` form field the handler returns the streaming response,
building the graph with the message content `None`. -/
theorem chat_absent_user_message_not_validated
    (sid : String) (h : sid ≠ "") :
    chat_asistance (some sid) none
      = (.eventStream "text/event-stream" "utf-8" "no-cache" sid none,
         { model_constructed := true, connection_acquired := true }) := by
  unfold chat_asistance
  simp [h]

/-- Witness for C10 at the concrete session id `"session-1"`. -/
theorem chat_absent_user_message_not_validated_witness :
    chat_asistance (some "session-1") none
      = (.eventStream "text/event-stream" "utf-8" "no-cache" "session-1" none,
         { model_constructed := true, connection_acquired := true }) :=
  chat_absent_user_message_not_validated "session-1" (by decide)

end ViewTheorems

section SupervisorTheorems

open Supervisor

/-- C8: `rag_executor_node` is a total function into a document list — no
exception escapes it and `rag_data` is always set.  With an absent or
empty intent it returns the empty list without attempting retrieval, and
whenever the retrieval attempt raises it returns the empty list instead of
propagating. -/
theorem rag_executor_total_and_safe :
    (∀ r, rag_executor_node none r = ([], false))
    ∧ (∀ r, rag_executor_node (some "") r = ([], false))
    ∧ (∀ intent msg,
        rag_executor_node intent (.raises msg)
          = ([], decide (intent.getD "" ≠ ""))) := by
  refine ⟨fun r => rfl, fun r => rfl, fun intent msg => ?_⟩
  unfold rag_executor_node
  by_cases h : intent.getD "" = "" <;> simp [h]

/-- The per-document rendering is the category label in square brackets
followed by the document content. -/
theorem renderDoc_eq (d : Document) :
    renderDoc d
      = "[" ++ d.category.getD "General" ++ "] " ++ d.page_content := by
  show "[" ++ d.category.getD "General" ++ "] " ++ d.page_content ++ ""
      = "[" ++ d.category.getD "General" ++ "] " ++ d.page_content
  exact String.append_empty _

/-- C4: with five or more retrieved documents, the grounding context is
built from exactly the first 5 documents in retrieval order — each rendered
as its bracketed category label followed by its content, joined by blank
lines — and `has_rag_data` is true exactly when at least one document was
retrieved. -/
theorem message_agent_context_first_five :
    (∀ docs : List Document, 5 ≤ docs.length →
      (message_generator_context docs).rag_context
        = String.intercalate "\n\n"
            ((docs.take 5).map
              (fun d => "[" ++ d.category.getD "General" ++ "] "
                ++ d.page_content)))
    ∧ (∀ docs : List Document,
        ((message_generator_context docs).has_rag_data = true
          ↔ 0 < docs.length)) := by
  constructor
  · intro docs h
    have hpos : 0 < docs.length := by omega
    unfold message_generator_context
    rw [if_pos hpos]
    exact congrArg (String.intercalate "\n\n")
      (List.map_congr_left fun d _ => renderDoc_eq d)
  · intro docs
    unfold message_generator_context
    by_cases hpos : 0 < docs.length <;> simp [hpos]

/-- Six concrete retrieved documents used to witness C4. -/
def demoDocs : List Document :=
  [⟨"c1", some "Technical_Capability"⟩, ⟨"c2", some "Domain_Expertise"⟩,
   ⟨"c3", none⟩, ⟨"c4", some "Engagement_Hiring"⟩,
   ⟨"c5", some "Process_Communication"⟩, ⟨"c6", some "Business_Impact_Trust"⟩]

/-- Witness for C4 on a concrete six-document retrieval result. -/
theorem message_agent_context_first_five_witness :
    (message_generator_context demoDocs).rag_context
      = String.intercalate "\n\n"
          ((demoDocs.take 5).map
            (fun d => "[" ++ d.category.getD "General" ++ "] "
              ++ d.page_content))
    ∧ ((message_generator_context demoDocs).has_rag_data = true
        ↔ 0 < demoDocs.length) :=
  ⟨message_agent_context_first_five.1 demoDocs (by decide),
   message_agent_context_first_five.2 demoDocs⟩

end SupervisorTheorems

section EmailTheorems

open EmailAgent

/-- `toString` on a string is the identity. -/
theorem toString_string (s : String) : toString s = s := rfl

/-- The sent/failed counting fold of `send_bulk_email`, solved in closed
form. -/
theorem bulk_fold_counts (sendOk : String → Bool) :
    ∀ (l : List String) (s f : Nat),
      l.foldl
        (fun acc recipient =>
          if sendOk recipient then (acc.1 + 1, acc.2) else (acc.1, acc.2 + 1))
        (s, f)
      = (s + l.countP sendOk, f + l.countP (fun r => !sendOk r)) := by
  intro l
  induction l with
  | nil => intro s f; simp
  | cons r rest ih =>
    intro s f
    by_cases h : sendOk r <;>
      simp [List.countP_cons, h, ih] <;> omega

/-- Helper: when some recipient is invalid, `send_bulk_email` returns the
error string naming all invalid addresses and attempts no send. -/
theorem send_bulk_email_invalid_case
    (connErr : Option String) (sendOk : String → Bool)
    (recipients subject body : String)
    (h : invalid_emails_of recipients ≠ []) :
    send_bulk_email connErr sendOk recipients subject body
      = ("Error: Invalid email addresses: "
          ++ String.intercalate ", " (invalid_emails_of recipients), []) := by
  unfold send_bulk_email
  rw [if_pos h]
  rw [Prod.mk.injEq]
  refine ⟨?_, rfl⟩
  show "Error: Invalid email addresses: "
      ++ String.intercalate ", " (invalid_emails_of recipients) ++ "" = _
  exact String.append_empty _

/-- C5: `send_bulk_email` on `"a@x.com, bad, c@x.com"` returns an error
string naming `bad` and performs no send at all; in general, any invalid
trimmed recipient aborts with an error naming every invalid address and an
empty send log, while an all-valid list is sent to individually over the
shared connection — every recipient attempted even past failures — with
the sent/failed counts reported. -/
theorem bulk_email_all_or_nothing :
    (∀ (connErr : Option String) (sendOk : String → Bool) (subject body : String),
      send_bulk_email connErr sendOk "a@x.com, bad, c@x.com" subject body
        = ("Error: Invalid email addresses: bad", []))
    ∧ (∀ (connErr : Option String) (sendOk : String → Bool)
        (recipients subject body : String),
        invalid_emails_of recipients ≠ [] →
        send_bulk_email connErr sendOk recipients subject body
          = ("Error: Invalid email addresses: "
              ++ String.intercalate ", " (invalid_emails_of recipients), []))
    ∧ (∀ (sendOk : String → Bool) (recipients subject body : String),
        invalid_emails_of recipients = [] →
        send_bulk_email none sendOk recipients subject body
          = ("✓ Bulk email complete: "
              ++ toString ((parse_recipients recipients).countP sendOk)
              ++ " sent, "
              ++ toString
                  ((parse_recipients recipients).countP (fun r => !sendOk r))
              ++ " failed",
             parse_recipients recipients)) := by
  refine ⟨?_, send_bulk_email_invalid_case, ?_⟩
  · intro connErr sendOk subject body
    have hinv : invalid_emails_of "a@x.com, bad, c@x.com" = ["bad"] := by decide
    rw [send_bulk_email_invalid_case connErr sendOk _ subject body
      (by rw [hinv]; decide), hinv]
    decide
  · intro sendOk recipients subject body h
    unfold send_bulk_email
    rw [if_neg (by simpa using h)]
    rw [bulk_fold_counts]
    rw [Prod.mk.injEq]
    refine ⟨?_, rfl⟩
    simp only [Nat.zero_add, toString_string]

/-- C6: with a valid primary recipient, `cc = "a@x.com, b@x.com"` and
`bcc = "c@x.com"`, the SMTP envelope is addressed to the primary followed
by the parsed CC list followed by the parsed BCC list, while the rendered
headers carry only `To` (primary) and `Cc` (the CC list) as recipient
headers — no `Bcc` header. -/
theorem cc_bcc_envelope_and_headers (sender p subject body : String)
    (h1 : Py.containsChar p '@' = true)
    (h2 : Py.containsChar p '.' = true) :
    (send_email_with_cc_bcc none sender p subject body
        "a@x.com, b@x.com" "c@x.com").2
      = some { headers := [("Subject", subject), ("From", sender), ("To", p),
                           ("Cc", "a@x.com, b@x.com")],
               to_addrs := [p, "a@x.com", "b@x.com", "c@x.com"] } := by
  unfold send_email_with_cc_bcc
  rw [if_neg (by simp [h1, h2])]
  rfl

/-- Witness for C6 at a concrete valid primary recipient. -/
theorem cc_bcc_envelope_and_headers_witness :
    (send_email_with_cc_bcc none "sender@y.com" "p@x.com" "Subj" "Body"
        "a@x.com, b@x.com" "c@x.com").2
      = some { headers := [("Subject", "Subj"), ("From", "sender@y.com"),
                           ("To", "p@x.com"), ("Cc", "a@x.com, b@x.com")],
               to_addrs := ["p@x.com", "a@x.com", "b@x.com", "c@x.com"] } :=
  cc_bcc_envelope_and_headers "sender@y.com" "p@x.com" "Subj" "Body"
    (by decide) (by decide)

/-- Witness for C5: a concrete all-valid recipient list is accepted and
every recipient is attempted. -/
theorem bulk_email_all_or_nothing_witness :
    invalid_emails_of "a@x.com, c@x.com" = []
    ∧ (send_bulk_email none (fun _ => true) "a@x.com, c@x.com" "S" "B").2
        = ["a@x.com", "c@x.com"] := by
  refine ⟨by decide, ?_⟩
  rw [bulk_email_all_or_nothing.2.2 (fun _ => true) "a@x.com, c@x.com" "S" "B"
    (by decide)]
  decide

end EmailTheorems

section IngestTheorems

open Ingest

/-- The alphabetical listing of the required categories is a permutation of
the source-order listing. -/
theorem required_categories_sorted_perm :
    required_categories_sorted.Perm required_categories := by decide

/-- Membership in the two listings of the required categories agrees. -/
theorem mem_required_categories_iff (c : String) :
    c ∈ required_categories ↔ c ∈ required_categories_sorted :=
  (required_categories_sorted_perm.mem_iff).symm

/-- Inversion for `validate_item`: a validated chunk's category is one of
the five allowed categories, and it is exactly the raw entry's
`metadata.category`. -/
theorem validate_item_ok_spec (item : RawItem) (v : TaxChunk)
    (h : validate_item item = .ok v) :
    required_categories.contains v.metadata.category = true
    ∧ (∀ m, item.metadata = some m → m.category = some v.metadata.category) := by
  obtain ⟨oc, om⟩ := item
  unfold validate_item at h
  split at h
  · exact Except.noConfusion h
  · exact Except.noConfusion h
  · next content metadata =>
    split at h
    · exact Except.noConfusion h
    · split at h
      · exact Except.noConfusion h
      · exact Except.noConfusion h
      · exact Except.noConfusion h
      · exact Except.noConfusion h
      · next category sub_type keywords project_ref h1 h2 h3 h4 =>
        split at h
        · exact Except.noConfusion h
        · next hcontains =>
          cases h
          refine ⟨by simpa using hcontains, ?_⟩
          intro m hm
          cases hm
          simp_all

/-- Inversion for the validation loop: on success, validated chunks and
input entries correspond in both directions. -/
theorem validate_items_ok_spec :
    ∀ (items : List RawItem) (chunks : List TaxChunk),
      validate_items items = .ok chunks →
      (∀ v ∈ chunks, ∃ item ∈ items, validate_item item = .ok v)
      ∧ (∀ item ∈ items, ∃ v ∈ chunks, validate_item item = .ok v) := by
  intro items
  induction items with
  | nil =>
    intro chunks h
    simp only [validate_items] at h
    cases h
    simp
  | cons item rest ih =>
    intro chunks h
    unfold validate_items at h
    cases hv : validate_item item with
    | error e => rw [hv] at h; exact Except.noConfusion h
    | ok v =>
      rw [hv] at h
      cases hr : validate_items rest with
      | error e => rw [hr] at h; exact Except.noConfusion h
      | ok vs =>
        rw [hr] at h
        cases h
        obtain ⟨ih1, ih2⟩ := ih vs hr
        constructor
        · intro w hw
          rcases List.mem_cons.mp hw with rfl | hw'
          · exact ⟨item, List.mem_cons_self _ _, hv⟩
          · obtain ⟨it, hit, hok⟩ := ih1 w hw'
            exact ⟨it, List.mem_cons_of_mem _ hit, hok⟩
        · intro it hit
          rcases List.mem_cons.mp hit with rfl | hit'
          · exact ⟨v, List.mem_cons_self _ _, hv⟩
          · obtain ⟨w, hw, hok⟩ := ih2 it hit'
            exact ⟨w, List.mem_cons_of_mem _ hw, hok⟩

/-- Inversion for `build_taxonomy_chunks`: success means the validation
loop succeeded with the same chunks and no required category is missing
among the seen categories. -/
theorem build_taxonomy_chunks_ok_spec (items : List RawItem)
    (chunks : List TaxChunk)
    (h : build_taxonomy_chunks items = .ok chunks) :
    validate_items items = .ok chunks
    ∧ ∀ c ∈ required_categories_sorted,
        (chunks.map (fun v => v.metadata.category)).contains c = true := by
  unfold build_taxonomy_chunks at h
  cases hv : validate_items items with
  | error e => rw [hv] at h; exact Except.noConfusion h
  | ok vs =>
    rw [hv] at h
    simp only [ne_eq, ite_not] at h
    by_cases hmiss : required_categories_sorted.filter
        (fun x => !(vs.map (fun v => v.metadata.category)).contains x) = []
    · rw [if_pos hmiss] at h
      injection h with h'
      subst h'
      refine ⟨rfl, ?_⟩
      intro c hc
      by_contra hcon
      have hfalse : (vs.map (fun v => v.metadata.category)).contains c = false := by
        revert hcon
        cases (vs.map (fun v => v.metadata.category)).contains c <;> simp
      have hmem : c ∈ required_categories_sorted.filter
          (fun x => !(vs.map (fun v => v.metadata.category)).contains x) :=
        List.mem_filter.mpr ⟨hc, by rw [hfalse]; rfl⟩
      rw [hmiss] at hmem
      exact List.not_mem_nil c hmem
    · rw [if_neg hmiss] at h
      exact Except.noConfusion h

/-- Four individually well-formed entries covering only four categories —
`Business_Impact_Trust` is absent. -/
def fourOfFiveItems : List RawItem :=
  [ { content := some "Tech paragraph.",
      metadata := some { category := some "Technical_Capability",
                         sub_type := some "stack",
                         keywords := some ["react", "aws"],
                         project_ref := some "P1" } },
    { content := some "Domain paragraph.",
      metadata := some { category := some "Domain_Expertise",
                         sub_type := some "fintech",
                         keywords := some ["lms"],
                         project_ref := some "P2" } },
    { content := some "Hiring paragraph.",
      metadata := some { category := some "Engagement_Hiring",
                         sub_type := some "rates",
                         keywords := some ["hourly"],
                         project_ref := some "P3" } },
    { content := some "Process paragraph.",
      metadata := some { category := some "Process_Communication",
                         sub_type := some "agile",
                         keywords := some ["sprint"],
                         project_ref := some "P4" } } ]

/-- C2: ingestion validation accepts a parsed taxonomy list only if every
validated entry's category is one of the five allowed values and the
categories seen cover all five required ones; an entry carrying a category
outside the allowed set forces the run to fail regardless of its other
fields; a list missing `Business_Impact_Trust` fails with an error naming
it; and any validation failure commits nothing to the knowledge base. -/
theorem ingestion_category_validation :
    (∀ (items : List RawItem) (chunks : List TaxChunk),
        build_taxonomy_chunks items = .ok chunks →
        (∀ v ∈ chunks, required_categories.contains v.metadata.category = true)
        ∧ (∀ c ∈ required_categories, ∃ v ∈ chunks, v.metadata.category = c))
    ∧ (∀ (items : List RawItem) (item : RawItem), item ∈ items →
        ∀ m, item.metadata = some m →
        ∀ c, m.category = some c →
        required_categories.contains c = false →
        ∃ msg, build_taxonomy_chunks items = .error msg)
    ∧ build_taxonomy_chunks fourOfFiveItems
        = .error "Missing categories: Business_Impact_Trust"
    ∧ (∀ (timestamp : String) (items : List RawItem) (msg : String),
        build_taxonomy_chunks items = .error msg →
        ingest_commit timestamp items = none) := by
  refine ⟨?_, ?_, ?_, ?_⟩
  · intro items chunks h
    obtain ⟨hval, hcover⟩ := build_taxonomy_chunks_ok_spec items chunks h
    obtain ⟨hdir1, _⟩ := validate_items_ok_spec items chunks hval
    constructor
    · intro v hv
      obtain ⟨item, _, hok⟩ := hdir1 v hv
      exact (validate_item_ok_spec item v hok).1
    · intro c hc
      have hc' := (mem_required_categories_iff c).mp hc
      have hcontains := hcover c hc'
      have hmemmap : c ∈ chunks.map (fun v => v.metadata.category) := by
        simpa using hcontains
      obtain ⟨v, hvmem, hveq⟩ := List.mem_map.mp hmemmap
      exact ⟨v, hvmem, hveq⟩
  · intro items item hmem m hm c hc hbad
    cases hb : build_taxonomy_chunks items with
    | error e => exact ⟨e, rfl⟩
    | ok chunks =>
      exfalso
      obtain ⟨hval, _⟩ := build_taxonomy_chunks_ok_spec items chunks hb
      obtain ⟨_, hdir2⟩ := validate_items_ok_spec items chunks hval
      obtain ⟨v, hvc, hok⟩ := hdir2 item hmem
      obtain ⟨hcat, hcat2⟩ := validate_item_ok_spec item v hok
      have hcc := hcat2 m hm
      rw [hc] at hcc
      injection hcc with hceq
      rw [← hceq] at hcat
      rw [hcat] at hbad
      exact Bool.noConfusion hbad
  · rfl
  · intro ts items msg h
    unfold ingest_commit
    rw [h]

/-- A raw metadata record whose category is outside the allowed set. -/
def bogusMeta : RawMeta :=
  { category := some "Marketing_Spin", sub_type := some "label",
    keywords := some ["kw"], project_ref := some "P9" }

/-- A well-formed entry apart from its disallowed category. -/
def bogusItem : RawItem :=
  { content := some "Nice prose.", metadata := some bogusMeta }

/-- Witness for C2: a list containing an entry with a disallowed category
fails validation. -/
theorem ingestion_category_validation_witness :
    ∃ msg, build_taxonomy_chunks [bogusItem] = .error msg :=
  ingestion_category_validation.2.1 [bogusItem] bogusItem
    (List.mem_singleton.mpr rfl) bogusMeta rfl "Marketing_Spin" rfl (by decide)

end IngestTheorems
